import Mathlib

/-!
Verification of the ChainGuard fraud-risk scoring engine.

This file shallowly embeds the risk-scoring engine of the repository
(`backend.py` and `api_server.py`) in Lean 4 and proves or refutes the
specification's testable properties about it.

Conventions of the embedding:
* Python floats are modelled as exact rationals (`ℚ`); Python `int(x)` /
  numpy `.astype(int)` are truncation toward zero (`pyInt`), and Python's
  `round` is round-half-to-even (`pyRound`).
* Opaque external components (trained ML models, Python's builtin `hash`,
  the local-time `hour` of a timestamp) are parameters of the embedded
  functions; everything the source computes itself is computed here.
* pandas dataframe rows whose fields may be missing or unparseable are
  records of `Option` fields; `none` models the source's
  missing-or-unparseable case, which the source replaces by a default.
-/

namespace ChainGuard

/-- Python `int(x)` on a float: truncation toward zero. -/
def pyInt (x : ℚ) : Int :=
  if 0 ≤ x then ⌊x⌋ else ⌈x⌉

/-- Python `round(x)` to an integer: round half to even. -/
def pyRound (x : ℚ) : Int :=
  let f : Int := ⌊x⌋
  let r : ℚ := x - f
  if r < 1/2 then f
  else if 1/2 < r then f + 1
  else if f % 2 = 0 then f else f + 1

/-- Python `round(x, n)`: round half to even at `n` decimal places. -/
def pyRoundAt (x : ℚ) (n : Nat) : ℚ :=
  (pyRound (x * (10 : ℚ) ^ n) : ℚ) / (10 : ℚ) ^ n

/-! ## RiskClassifier (`api_server.py`, `get_risk_level_and_action`) -/

/-- The record returned by `get_risk_level_and_action`. -/
structure RiskInfo where
  level : String
  action : String
  threat_level : String
  description : String
  triggers_alert : Bool
deriving Repr, DecidableEq

/-- `api_server.get_risk_level_and_action`: centralized risk level
determination, thresholds 80 (BLOCKED) and 65 (SUSPICIOUS). -/
def get_risk_level_and_action (risk_score : ℚ) : RiskInfo :=
  if risk_score ≥ 80 then
    { level := "BLOCKED", action := "Block", threat_level := "HIGH",
      description := "  CRITICAL - Block Transaction Immediately",
      triggers_alert := false }
  else if risk_score ≥ 65 then
    { level := "SUSPICIOUS", action := "Alert", threat_level := "MEDIUM",
      description := "\u26a0\ufe0f HIGH RISK - Flag for Investigation",
      triggers_alert := true }
  else
    { level := "APPROVED", action := "Approve", threat_level := "LOW",
      description := "\u2705 LOW RISK - Allow Transaction",
      triggers_alert := false }

/-! ## Streaming labels (`backend.py`, `get_fraud_label` / `get_action`) -/

/-- `backend.get_fraud_label`: the label applied on the streaming path,
thresholds 80 (`Fraudulent`) and 50 (`Suspicious`). -/
def get_fraud_label (risk_score : Int) : String :=
  if risk_score ≥ 80 then "Fraudulent"
  else if risk_score ≥ 50 then "Suspicious"
  else "Normal"

/-- `backend.get_action`: the action string applied on the streaming path. -/
def get_action (risk_score : Int) : String :=
  if risk_score ≥ 80 then "  CRITICAL - Block Transaction Immediately"
  else if risk_score ≥ 65 then "\u00e2\u0161\u00a0\u00ef\u00b8 HIGH RISK - Flag for Investigation"
  else if risk_score ≥ 50 then "\u00f0\u0178\u201d\u00b6 SUSPICIOUS - Requires Manual Review"
  else if risk_score ≥ 30 then "\u00f0\u0178\u0178\u00a1 MEDIUM RISK - Monitor Closely"
  else "\u00f0\u0178\u0178\u00a2 LOW RISK - Normal Activity"

/-- The three risk tiers, and the tier named by each label vocabulary. -/
inductive Tier where
  | APPROVED | SUSPICIOUS | BLOCKED
deriving Repr, DecidableEq

/-- Tier named by a `get_risk_level_and_action` level string. -/
def tierOfLevel (level : String) : Tier :=
  if level = "BLOCKED" then .BLOCKED
  else if level = "SUSPICIOUS" then .SUSPICIOUS
  else .APPROVED

/-- Tier named by a `backend.get_fraud_label` label string
(`Fraudulent` = blocked, `Suspicious` = suspicious, `Normal` = approved). -/
def tierOfLabel (label : String) : Tier :=
  if label = "Fraudulent" then .BLOCKED
  else if label = "Suspicious" then .SUSPICIOUS
  else .APPROVED

/-! ## Fallback scorer (`backend.py`, `predict_with_risk`, per row) -/

/-- `pat in s` on Python strings: substring test. -/
def strContainsSub (s pat : String) : Bool :=
  s.data.tails.any (fun t => pat.data.isPrefixOf t)

/-- `s.endswith(pat)` on Python strings. -/
def strEndsWith (s pat : String) : Bool :=
  pat.data.isSuffixOf s.data

/-- `s.lower()` on Python strings (ASCII case mapping, which is all the
address strings use). -/
def strLower (s : String) : String :=
  String.mk (s.data.map Char.toLower)

/-- Opaque Python externals used by `predict_with_risk`:
the builtin `hash` of `from_addr + to_addr + str(value)`, the builtin
`hash` of `str(tx_hash)`, and `datetime.fromtimestamp(ts).hour`
(local-time hour). -/
structure PyEnv where
  hashAddrVal : String → String → ℚ → Int
  hashStr : String → Int
  localHour : Int → Int

/-- Input row of `backend.predict_with_risk`. `TimeStamp` is optional
because the source guards it with `if 'TimeStamp' in row`. -/
structure BackendRow where
  TxHash : String
  From : String
  To : String
  Value : ℚ
  TimeStamp : Option Int

/-- The fraud probability computed by one iteration of the row loop of
`backend.predict_with_risk` (`backend.py` lines 123-182). -/
def predict_with_risk_row (env : PyEnv) (row : BackendRow) : ℚ :=
  let value_eth := row.Value / 10 ^ 18
  let r1 : ℚ :=
    if value_eth > 100 then 2/5
    else if value_eth > 50 then 1/4
    else if value_eth > 10 then 1/10
    else 0
  let r2 := if |value_eth - (pyRound value_eth : ℚ)| < 1/1000 then r1 + 3/10 else r1
  let r3 := if value_eth < 1/1000 then r2 + 1/5 else r2
  let from_addr := strLower row.From
  let to_addr := strLower row.To
  let r4 := if from_addr = to_addr then r3 + 1/2 else r3
  let r5 :=
    if strContainsSub from_addr "0000" || strContainsSub from_addr "1111" ||
        strContainsSub from_addr "ffff" then r4 + 3/20 else r4
  let r6 :=
    if strContainsSub to_addr "0000" || strContainsSub to_addr "1111" ||
        strContainsSub to_addr "ffff" then r5 + 3/20 else r5
  let r7 := if strEndsWith from_addr "0000" || strEndsWith to_addr "0000" then r6 + 1/10 else r6
  let base_randomness : ℚ := ((env.hashAddrVal from_addr to_addr row.Value % 100 : Int) : ℚ) / 1000
  let r8 := r7 + base_randomness
  let r9 :=
    match row.TimeStamp with
    | some ts =>
        let hour := env.localHour ts
        if hour < 6 ∨ hour > 22 then r8 + 1/20 else r8
    | none => r8
  let r10 := max 0 (min (19/20) r9)
  let final_variance : ℚ := ((env.hashStr row.TxHash % 20 - 10 : Int) : ℚ) / 100
  max 0 (min (19/20) (r10 + final_variance))

/-! ## Streaming pipeline (`api_server.py`, `process_transaction_data`
and `monitoring_loop`) -/

/-- The transaction record assembled by the streaming loop before
scoring (`monitoring_loop`, `tx_data`). -/
structure StreamTx where
  TxHash : String
  BlockHeight : Int
  TimeStamp : Int
  From : String
  To : String
  Value : ℚ
deriving DecidableEq, Repr

/-- A scored streaming transaction, the result of
`process_transaction_data`: the raw record plus fraud probability,
integer risk score, label and action. -/
structure ScoredTx where
  TxHash : String
  BlockHeight : Int
  TimeStamp : Int
  From : String
  To : String
  Value : ℚ
  fraud_probability : ℚ
  risk_score : Int
  label : String
  action : String
deriving DecidableEq, Repr

/-- `api_server.process_transaction_data`: run `backend.predict_with_risk`
on the single-row frame of the record and package the outputs. -/
def process_transaction_data (env : PyEnv) (tx : StreamTx) : ScoredTx :=
  let p := predict_with_risk_row env
    { TxHash := tx.TxHash, From := tx.From, To := tx.To,
      Value := tx.Value, TimeStamp := some tx.TimeStamp }
  let rs := pyInt (p * 100)
  { TxHash := tx.TxHash, BlockHeight := tx.BlockHeight, TimeStamp := tx.TimeStamp,
    From := tx.From, To := tx.To, Value := tx.Value,
    fraud_probability := p, risk_score := rs,
    label := get_fraud_label rs, action := get_action rs }

/-- `buf.insert(0, x)` followed by `if len(buf) > cap: buf.pop()`:
newest-first bounded insertion, dropping the oldest (tail) element. -/
def pushNewest {α : Type} (cap : Nat) (x : α) (buf : List α) : List α :=
  let b := x :: buf
  if b.length > cap then b.dropLast else b

/-- `buf.append(x)` followed by `if len(buf) > cap: buf.pop(0)`:
FIFO bounded insertion, dropping the oldest (head) element. -/
def pushFifo {α : Type} (cap : Nat) (x : α) (buf : List α) : List α :=
  let b := buf ++ [x]
  if b.length > cap then b.drop 1 else b

/-- A suspicious-alert entry (`monitoring_loop`): the scored transaction
annotated with an alert type and reason. -/
structure AlertTx where
  tx : ScoredTx
  alert_type : String
  alert_reason : String
deriving DecidableEq, Repr

/-- The mutable monitoring state of `api_server.py`: the deduplication
set `processed_tx_hashes` (modelled as a list with set membership), the
aggregate counters, and the four bounded alert buffers. -/
structure MonitoringState where
  processed_tx_hashes : List String
  total_processed : Nat
  total_fraud : Nat
  live_transactions : List ScoredTx
  fraud_history : List ℚ
  high_risk_transactions : List ScoredTx
  suspicious_alerts : List AlertTx
deriving DecidableEq, Repr

/-- The suspicious-alert entry built by `monitoring_loop` for a scored
transaction in the suspicious range. -/
def alertOf (r : ScoredTx) : AlertTx :=
  { tx := r, alert_type := "SUSPICIOUS",
    alert_reason := "Risk score " ++ toString r.risk_score ++
      "% in suspicious range (65-80%)" }

/-- The initial monitoring state: empty dedup set, zero counters, empty
buffers. -/
def initialMonitoringState : MonitoringState :=
  { processed_tx_hashes := [], total_processed := 0, total_fraud := 0,
    live_transactions := [], fraud_history := [],
    high_risk_transactions := [], suspicious_alerts := [] }

/-- One streaming record through `monitoring_loop`: the dedup check
(skip scoring and counting when the hash was already processed),
otherwise score, enqueue, and - when the queue is drained in the same
cycle - update the live feed, fraud history, counters and the two alert
buffers exactly as the source does. -/
def monitoring_step (env : PyEnv) (tx : StreamTx) (s : MonitoringState) : MonitoringState :=
  if tx.TxHash ∈ s.processed_tx_hashes then s
  else
    let r := process_transaction_data env tx
    { processed_tx_hashes := tx.TxHash :: s.processed_tx_hashes,
      total_processed := s.total_processed + 1,
      total_fraud := s.total_fraud + (if r.label = "Fraudulent" then 1 else 0),
      live_transactions := pushNewest 1000 r s.live_transactions,
      fraud_history := pushFifo 1000 r.fraud_probability s.fraud_history,
      high_risk_transactions :=
        if r.risk_score ≥ 80 then pushNewest 100 r s.high_risk_transactions
        else s.high_risk_transactions,
      suspicious_alerts :=
        if r.risk_score ≥ 80 then s.suspicious_alerts
        else if r.risk_score ≥ 65 then
          pushNewest 200 (alertOf r) s.suspicious_alerts
        else s.suspicious_alerts }

/-- The dedup-set compaction of `monitoring_loop`: once the set exceeds
5000 entries, clear it and reseed it from the hashes of the first 2500
live-feed entries. -/
def compact_processed_hashes (s : MonitoringState) : MonitoringState :=
  if s.processed_tx_hashes.length > 5000 then
    { s with processed_tx_hashes := (s.live_transactions.take 2500).map (fun t => t.TxHash) }
  else s

/-! ## Ensemble path (`api_server.py`, `predict_with_ensemble` and
`analyze_with_ensemble_system`) -/

/-- `pd.to_datetime(ts, unit='s').hour` (UTC hour of a Unix timestamp). -/
def pdHour (ts : Int) : Int := Int.fdiv ts 3600 % 24

/-- `pd.to_datetime(ts, unit='s').dayofweek` (Monday = 0; the Unix epoch
1970-01-01 was a Thursday, day 3). -/
def pdDayOfWeek (ts : Int) : Int := (Int.fdiv ts 86400 + 3) % 7

/-- `predict_with_ensemble`, per transaction: the ensemble probability is
the weighted sum of the sub-model probabilities. The trained sub-models
are opaque artifacts, so a transaction's readout is the list of
(sub-model probability, weight) pairs. No clamping is applied here. -/
def ensemble_proba (modelOutputs : List (ℚ × ℚ)) : ℚ :=
  (modelOutputs.map (fun mw => mw.1 * mw.2)).sum

/-- `predict_with_ensemble`: the binary prediction is
`ensemble_proba >= threshold`. -/
def ensemble_pred (threshold : ℚ) (proba : ℚ) : Bool :=
  proba ≥ threshold

/-- A fully-formed input row of `analyze_with_ensemble_system` (a row
missing one of these fields raises inside the loop and the whole call
falls back to `csv_analyzer.analyze_transactions`). `isError` is read
with `row.get('isError', 0)`. -/
structure EnsembleRow where
  TxHash : String
  From : String
  To : String
  Value : ℚ
  BlockHeight : Int
  TimeStamp : Int
  isError : Option Int
deriving DecidableEq, Repr

/-- The result record built by `analyze_with_ensemble_system` for one
row (presentation-only duplicates such as `from_address` and the
`details` string are not repeated). -/
structure EnsembleResult where
  transaction_id : String
  TxHash : String
  From : String
  To : String
  Value : ℚ
  BlockHeight : Int
  TimeStamp : Int
  is_error : Bool
  risk_score : Int
  fraud_probability : ℚ
  label : String
  status : String
  action : String
  flags : List String
  is_fraud : Bool
  model_type : String
  confidence : ℚ
deriving DecidableEq, Repr

/-- One iteration of the result loop of `analyze_with_ensemble_system`
(`api_server.py` lines 305-385), given the ensemble prediction and
probability for this row. -/
def analyze_with_ensemble_row (ensemble_pred : Bool) (ensemble_proba : ℚ)
    (row : EnsembleRow) : EnsembleResult :=
  let raw_value := row.Value
  let value_eth := if raw_value > 1000 then raw_value / 10 ^ 18 else raw_value
  let is_fraud := ensemble_pred
  let fraud_probability := ensemble_proba
  let risk_score := pyInt (fraud_probability * 100)
  let risk_info := get_risk_level_and_action (risk_score : ℚ)
  let f1 : List String := if row.isError.getD 0 = 1 then ["Transaction Error"] else []
  let f2 :=
    if value_eth > 100 then f1 ++ ["Large Amount"]
    else if value_eth < 1/1000 then f1 ++ ["Dust Transaction"]
    else f1
  let f3 := if value_eth = pyRoundAt value_eth 0 ∧ value_eth ≥ 1 then f2 ++ ["Round Amount"] else f2
  let f4 :=
    if pdHour row.TimeStamp = 2 ∨ pdHour row.TimeStamp = 3 ∨
        pdHour row.TimeStamp = 4 ∨ pdHour row.TimeStamp = 5 then
      f3 ++ ["Suspicious Hour"]
    else f3
  let f5 := if pdDayOfWeek row.TimeStamp ≥ 5 then f4 ++ ["Weekend Transaction"] else f4
  let f6 := if row.From = row.To then f5 ++ ["Self Transaction"] else f5
  let f7 := if is_fraud then f6 ++ ["Ensemble High Risk"] else f6
  let flags := if fraud_probability > 4/5 then f7 ++ ["High Confidence Fraud"] else f7
  { transaction_id := row.TxHash, TxHash := row.TxHash,
    From := row.From, To := row.To, Value := value_eth,
    BlockHeight := row.BlockHeight, TimeStamp := row.TimeStamp,
    is_error := row.isError.getD 0 ≠ 0,
    risk_score := risk_score, fraud_probability := fraud_probability,
    label := risk_info.level, status := risk_info.level,
    action := risk_info.action, flags := flags, is_fraud := is_fraud,
    model_type := "Advanced Ensemble",
    confidence := |fraud_probability - 1/2| * 2 }

/-! ## Batch fallback analyzer (`api_server.py`,
`CSVFraudAnalyzer.analyze_transactions`) -/

/-- A row of an uploaded batch as consumed by
`CSVFraudAnalyzer.analyze_transactions`. A `none` field models a value
that is missing from the dataframe or failed its parse, which the source
replaces by the documented default. `amount` is the first available of
the `Value`/`value`/`amount` columns. -/
structure CsvRow where
  TxHash : Option String
  BlockHeight : Option Int
  TimeStamp : Option Int
  From : Option String
  To : Option String
  amount : Option ℚ
  isError : Option Int
deriving DecidableEq, Repr

/-- `s.count(c)` on a Python string. -/
def strCountChar (s : String) (c : Char) : Nat := s.data.count c

/-- The result record built by `CSVFraudAnalyzer.analyze_transactions`
for one row (the simulated geographic fields and the `details` string,
which are presentation only, are not repeated). -/
structure CsvResult where
  transaction_id : String
  TxHash : String
  From : String
  To : String
  Value : ℚ
  BlockHeight : Int
  TimeStamp : Int
  is_error : Int
  risk_score : Int
  status : String
  label : String
  threat_level : String
  flags : List String
deriving DecidableEq, Repr

/-- One iteration of the per-transaction loop of
`CSVFraudAnalyzer.analyze_transactions` (`api_server.py` lines
1374-1552). `isoPred` and `anomalyScore` are this row's outputs of the
fitted Isolation Forest, `catPred` its CatBoost class when CatBoost is
available, and `randFrom`/`randTo` the random addresses substituted when
the `From`/`To` fields are missing; all four are opaque external inputs
of the source. The risk level (`status`) is computed from the risk
accumulated so far BEFORE the address-based points are added, exactly as
in the source. The rule-based and ML points accumulated BEFORE the
address-based additions are split out, into `rule_ml_score` (the score
accumulator) and `rule_ml_flags` (the flag list at that point), because
the source reads the risk level off this intermediate score. -/
def rule_ml_score (row : CsvRow) (isoPred : Int)
    (anomalyScore : ℚ) (catPred : Option Int) : ℚ :=
  let amount := row.amount.getD 0
  let is_error := row.isError.getD 0
  let block_height := row.BlockHeight.getD 0
  let r1 : ℚ := if amount > 10 then 30 else if amount > 1 then 15 else 0
  let r2 := if amount < 1/1000 then r1 + 20 else r1
  let r3 := if is_error = 1 then r2 + 40 else r2
  let current_block_approx : Int := 19000000
  let block_age := current_block_approx - block_height
  let r4 :=
    if block_height > 0 then
      if block_age < 100 then r3 + 10
      else if block_age > 10000000 then r3 + 5
      else r3
    else r3
  let r5 := if amount > 0 ∧ |amount - pyRoundAt amount 2| < 1/10000 then r4 + 15 else r4
  let ml_risk := min 25 (|anomalyScore| * 15)
  let r6 := if isoPred = -1 then r5 + ml_risk else r5
  let mlBoost1 : ℚ := if isoPred = -1 then 10 else 0
  let r7 :=
    match catPred with
    | some c => if c ≥ 2 then r6 + 20 else if c = 1 then r6 + 10 else r6
    | none => r6
  let ml_boost :=
    match catPred with
    | some c => if c ≥ 2 then mlBoost1 + 15 else if c = 1 then mlBoost1 + 5 else mlBoost1
    | none => mlBoost1
  if ml_boost > 0 then r7 + min 15 ml_boost else r7

/-- The flag list accumulated by the same loop prefix as
`rule_ml_score`, before the address-based flags. -/
def rule_ml_flags (row : CsvRow) (isoPred : Int)
    (anomalyScore : ℚ) (catPred : Option Int) : List String :=
  let amount := row.amount.getD 0
  let is_error := row.isError.getD 0
  let block_height := row.BlockHeight.getD 0
  let f1 : List String :=
    if amount > 10 then ["Large Amount"]
    else if amount > 1 then ["Medium Amount"] else []
  let f2 := if amount < 1/1000 then f1 ++ ["Dust Transaction"] else f1
  let f3 := if is_error = 1 then f2 ++ ["Transaction Error"] else f2
  let current_block_approx : Int := 19000000
  let block_age := current_block_approx - block_height
  let f4 :=
    if block_height > 0 then
      if block_age < 100 then f3 ++ ["Recent Block"]
      else if block_age > 10000000 then f3 ++ ["Old Block"]
      else f3
    else f3
  let f5 := if amount > 0 ∧ |amount - pyRoundAt amount 2| < 1/10000 then f4 ++ ["Round Amount"] else f4
  let f6 := if isoPred = -1 then f5 ++ ["Isolation Anomaly"] else f5
  match catPred with
  | some c =>
      if c ≥ 2 then f6 ++ ["CatBoost High Risk"]
      else if c = 1 then f6 ++ ["CatBoost Medium Risk"]
      else f6
  | none => f6

/-- The rest of the loop body: the risk level is taken from the rule/ML
score accumulated so far, and only AFTERWARDS are the address-based
points (self transfer, contract-like addresses) added to the score that
is reported, exactly as in the source. -/
def analyze_transactions_row (idx : Nat) (row : CsvRow) (isoPred : Int)
    (anomalyScore : ℚ) (catPred : Option Int) (randFrom randTo : String) :
    CsvResult :=
  let amount := row.amount.getD 0
  let is_error := row.isError.getD 0
  let block_height := row.BlockHeight.getD 0
  let timestamp := row.TimeStamp.getD 0
  let r8 := rule_ml_score row isoPred anomalyScore catPred
  let f7 := rule_ml_flags row isoPred anomalyScore catPred
  let risk_info := get_risk_level_and_action r8
  let status := risk_info.level
  let threat_level := risk_info.threat_level
  let tx_id := row.TxHash.getD ("tx_" ++ toString idx)
  let from_addr := row.From.getD randFrom
  let to_addr := row.To.getD randTo
  let r9 := if from_addr = to_addr then r8 + 25 else r8
  let f9 := if from_addr = to_addr then f7 ++ ["Self Transfer"] else f7
  let r10 := if strCountChar from_addr '0' > 20 then r9 + 10 else r9
  let f10 := if strCountChar from_addr '0' > 20 then f9 ++ ["Contract-like From"] else f9
  let r11 := if strCountChar to_addr '0' > 20 then r10 + 10 else r10
  let flags := if strCountChar to_addr '0' > 20 then f10 ++ ["Contract-like To"] else f10
  { transaction_id := tx_id, TxHash := tx_id,
    From := from_addr, To := to_addr, Value := amount,
    BlockHeight := block_height, TimeStamp := timestamp,
    is_error := is_error,
    risk_score := min 100 (pyInt r11),
    status := status, label := status, threat_level := threat_level,
    flags := flags }

/-- The opaque per-row external inputs of
`CSVFraudAnalyzer.analyze_transactions`: the fitted Isolation Forest's
prediction and anomaly score, the optional CatBoost class, and the
random fallback addresses. -/
structure MlEnv where
  isoPred : Nat → Int
  anomalyScore : Nat → ℚ
  catPred : Option (Nat → Int)
  randFrom : Nat → String
  randTo : Nat → String

/-- `CSVFraudAnalyzer.analyze_transactions`: analyze every row of the
batch in order. -/
def analyze_transactions (ml : MlEnv) (rows : List CsvRow) : List CsvResult :=
  (rows.enum).map (fun p =>
    analyze_transactions_row p.1 p.2 (ml.isoPred p.1) (ml.anomalyScore p.1)
      (match ml.catPred with
       | some f => some (f p.1)
       | none => none)
      (ml.randFrom p.1) (ml.randTo p.1))

/-! ## Batch entry points (`api_server.py` `analyze_csv`, and the
Streamlit upload page `app.py` `show_csv_scoring`) -/

/-- The required batch columns checked by `app.py`'s upload page. -/
def required_cols : List String :=
  ["TxHash", "BlockHeight", "TimeStamp", "From", "To", "Value"]

/-- An uploaded tabular file: its filename, its column names, and its
rows. -/
structure CsvFile where
  filename : String
  columns : List String
  rows : List CsvRow
deriving Repr

/-- `app.py show_csv_scoring`: the missing required columns of an upload. -/
def show_csv_scoring_missing_cols (df_columns : List String) : List String :=
  required_cols.filter (fun c => ¬ df_columns.contains c)

/-- `app.py show_csv_scoring`: the upload is rejected (scoring never
runs) exactly when some required column is missing. -/
def show_csv_scoring_rejects (df_columns : List String) : Bool :=
  ¬ (show_csv_scoring_missing_cols df_columns).isEmpty

/-- `api_server.analyze_csv` on the fallback branch (ensemble system not
loaded, CatBoost analyzer optional): the only rejections are a missing
file, an empty filename, a non-`.csv` filename, and an empty dataframe;
required columns are NOT checked, and every row is scored. -/
def analyze_csv (ml : MlEnv) (file : Option CsvFile) :
    Except String (List CsvResult) :=
  match file with
  | none => .error "No file uploaded"
  | some f =>
      if f.filename = "" then .error "No file selected"
      else if ¬ strEndsWith f.filename ".csv" then .error "Please upload a CSV file"
      else if f.rows.isEmpty then .error "CSV file is empty"
      else .ok (analyze_transactions ml f.rows)

/-! ## AddressProfileAggregator (`api_server.py`, `update_node_analysis`) -/

/-- A row of the `node_analysis` table (the fields `update_node_analysis`
reads and writes; timestamps are kept by the database layer). -/
structure NodeRecord where
  total_transactions : Int
  fraud_transactions : Int
  fraud_percentage : ℚ
  total_value : ℚ
  fraud_value : ℚ
  risk_score : ℚ
deriving DecidableEq, Repr

/-- The designated null address skipped by `update_node_analysis`. -/
def NULL_ADDRESS : String := "0x0000000000000000000000000000000000000000"

/-- The `node_analysis` store, keyed by address. -/
abbrev NodeStore : Type := List (String × NodeRecord)

/-- Look an address up in the store (`SELECT ... WHERE address = ?`). -/
def lookupNode (store : NodeStore) (address : String) : Option NodeRecord :=
  (store.find? (fun e => e.1 = address)).map (fun e => e.2)

/-- The per-address body of the loop of `update_node_analysis`
(`api_server.py` lines 503-552): skip empty and null addresses; update
an existing record with the incremental formulas; create a new record
with fraud percentage 100/0 and risk score 0.5/0.1. -/
def update_address (store : NodeStore) (address : String) (is_fraud : Bool)
    (tx_value : ℚ) : NodeStore :=
  if address = "" ∨ address = NULL_ADDRESS then store
  else
    match lookupNode store address with
    | some r =>
        let new_total_tx := r.total_transactions + 1
        let new_fraud_tx := r.fraud_transactions + (if is_fraud then 1 else 0)
        let new_total_val := r.total_value + tx_value
        let new_fraud_val := r.fraud_value + (if is_fraud then tx_value else 0)
        let fraud_percentage : ℚ := ((new_fraud_tx : ℚ) / (new_total_tx : ℚ)) * 100
        let risk_score : ℚ :=
          min 100 (fraud_percentage * (2/5) +
            min 100 (((new_fraud_tx : ℚ) / 10) * 100) * (3/10) +
            min 100 ((new_total_val / 1000) * 100) * (1/5) +
            min 100 (((new_total_tx : ℚ) / 100) * 100) * (1/10)) / 100
        store.map (fun e =>
          if e.1 = address then
            (address,
              { total_transactions := new_total_tx,
                fraud_transactions := new_fraud_tx,
                fraud_percentage := fraud_percentage,
                total_value := new_total_val,
                fraud_value := new_fraud_val,
                risk_score := risk_score })
          else e)
    | none =>
        let fraud_percentage : ℚ := if is_fraud then 100 else 0
        let risk_score : ℚ := if is_fraud then 1/2 else 1/10
        store ++ [(address,
          { total_transactions := 1,
            fraud_transactions := if is_fraud then 1 else 0,
            fraud_percentage := fraud_percentage,
            total_value := tx_value,
            fraud_value := if is_fraud then tx_value else 0,
            risk_score := risk_score })]

/-- `api_server.update_node_analysis`: update the profiles of the `From`
and then the `To` address of a saved transaction. `is_fraud` is the
comparison of the transaction's label with `'Fraudulent'`, and the value
is divided by 10^18. -/
def update_node_analysis (store : NodeStore) (txFrom txTo label : String)
    (value : ℚ) : NodeStore :=
  let is_fraud := label = "Fraudulent"
  let tx_value := value / 10 ^ 18
  update_address (update_address store txFrom is_fraud tx_value) txTo is_fraud tx_value

/-- The aggregate risk score the specification prescribes for a profile:
`min(100, 0.4·fraud_pct + 0.3·min(100, fraud/10·100) +
0.2·min(100, value/1000·100) + 0.1·min(100, total/100·100)) / 100`.
Stated from the spec's words for comparison with `update_address`. -/
def specAggregateRisk (fraud_pct : ℚ) (fraud_tx : Int) (total_val : ℚ)
    (total_tx : Int) : ℚ :=
  min 100 ((2/5) * fraud_pct +
    (3/10) * min 100 (((fraud_tx : ℚ) / 10) * 100) +
    (1/5) * min 100 ((total_val / 1000) * 100) +
    (1/10) * min 100 (((total_tx : ℚ) / 100) * 100)) / 100

/-! ## Privacy hashing (`backend.py`, `hash_identifier` and
`apply_privacy_hashing`). SHA-256 is implemented here over byte lists so
that `hash_identifier` computes the same digests as `hashlib.sha256`. -/

/-- Truncate to a 32-bit word. -/
def w32 (x : Nat) : Nat := x % 2 ^ 32

/-- 32-bit right rotation. -/
def rotr (n x : Nat) : Nat := w32 ((x >>> n) ||| (x <<< (32 - n)))

/-- SHA-256 `Ch`. -/
def shaCh (x y z : Nat) : Nat := (x &&& y) ^^^ ((x ^^^ 0xffffffff) &&& z)

/-- SHA-256 `Maj`. -/
def shaMaj (x y z : Nat) : Nat := (x &&& y) ^^^ (x &&& z) ^^^ (y &&& z)

/-- SHA-256 `Σ0`. -/
def shaS0 (x : Nat) : Nat := rotr 2 x ^^^ rotr 13 x ^^^ rotr 22 x

/-- SHA-256 `Σ1`. -/
def shaS1 (x : Nat) : Nat := rotr 6 x ^^^ rotr 11 x ^^^ rotr 25 x

/-- SHA-256 `σ0`. -/
def shas0 (x : Nat) : Nat := rotr 7 x ^^^ rotr 18 x ^^^ (x >>> 3)

/-- SHA-256 `σ1`. -/
def shas1 (x : Nat) : Nat := rotr 17 x ^^^ rotr 19 x ^^^ (x >>> 10)

/-- The SHA-256 round constants. -/
def shaK : List Nat :=
  [1116352408, 1899447441, 3049323471, 3921009573, 961987163,
   1508970993, 2453635748, 2870763221, 3624381080, 310598401,
   607225278, 1426881987, 1925078388, 2162078206, 2614888103,
   3248222580, 3835390401, 4022224774, 264347078, 604807628,
   770255983, 1249150122, 1555081692, 1996064986, 2554220882,
   2821834349, 2952996808, 3210313671, 3336571891, 3584528711,
   113926993, 338241895, 666307205, 773529912, 1294757372,
   1396182291, 1695183700, 1986661051, 2177026350, 2456956037,
   2730485921, 2820302411, 3259730800, 3345764771, 3516065817,
   3600352804, 4094571909, 275423344, 430227734, 506948616,
   659060556, 883997877, 958139571, 1322822218, 1537002063,
   1747873779, 1955562222, 2024104815, 2227730452, 2361852424,
   2428436474, 2756734187, 3204031479, 3329325298]

/-- The SHA-256 initial hash value. -/
def shaH0 : List Nat :=
  [1779033703, 3144134277, 1013904242, 2773480762,
   1359893119, 2600822924, 528734635, 1541459225]

/-- Extend the 16 message words of a block to the 64-word schedule. -/
def shaSchedule (block16 : List Nat) : List Nat :=
  (List.range 48).foldl
    (fun ws _ =>
      let n := ws.length
      ws ++ [w32 (shas1 (ws.getD (n - 2) 0) + ws.getD (n - 7) 0 +
        shas0 (ws.getD (n - 15) 0) + ws.getD (n - 16) 0)])
    block16

/-- One SHA-256 round on the working state `[a,b,c,d,e,f,g,h]`. -/
def shaRound (st : List Nat) (kw : Nat × Nat) : List Nat :=
  let a := st.getD 0 0
  let b := st.getD 1 0
  let c := st.getD 2 0
  let d := st.getD 3 0
  let e := st.getD 4 0
  let f := st.getD 5 0
  let g := st.getD 6 0
  let h := st.getD 7 0
  let t1 := w32 (h + shaS1 e + shaCh e f g + kw.1 + kw.2)
  let t2 := w32 (shaS0 a + shaMaj a b c)
  [w32 (t1 + t2), a, b, c, w32 (d + t1), e, f, g]

/-- Process one 512-bit block into the running hash. -/
def shaProcessBlock (h : List Nat) (block16 : List Nat) : List Nat :=
  let ws := shaSchedule block16
  let st := (shaK.zip ws).foldl shaRound h
  (h.zip st).map (fun p => w32 (p.1 + p.2))

/-- Pad a byte message to a multiple of 64 bytes, SHA-256 style. -/
def shaPad (msg : List Nat) : List Nat :=
  let len := msg.length
  let bitLen := len * 8
  let padZeros := (119 - len % 64) % 64
  msg ++ [0x80] ++ List.replicate padZeros 0 ++
    (List.range 8).map (fun i => bitLen >>> (56 - 8 * i) % 256)

/-- The 16 big-endian 32-bit words of a 64-byte block. -/
def shaWordsOfBlock (blk : List Nat) : List Nat :=
  (List.range 16).map (fun j =>
    blk.getD (4 * j) 0 * 2 ^ 24 + blk.getD (4 * j + 1) 0 * 2 ^ 16 +
    blk.getD (4 * j + 2) 0 * 2 ^ 8 + blk.getD (4 * j + 3) 0)

/-- SHA-256 of a byte message, as the 8 words of the digest. -/
def sha256 (msg : List Nat) : List Nat :=
  let padded := shaPad msg
  ((List.range (padded.length / 64)).map (fun i =>
    shaWordsOfBlock ((padded.drop (64 * i)).take 64))).foldl shaProcessBlock shaH0

/-- Lower-case hex digit of a value below 16. -/
def hexDigit (n : Nat) : Char :=
  if n < 10 then Char.ofNat (48 + n) else Char.ofNat (87 + n)

/-- The 8 hex characters of a 32-bit word, most significant first. -/
def wordHex (w : Nat) : List Char :=
  (List.range 8).map (fun i => hexDigit ((w >>> (4 * (7 - i))) % 16))

/-- `hexdigest()` of a SHA-256 digest. -/
def hexdigest (words : List Nat) : String :=
  String.mk ((words.map wordHex).flatten)

/-- UTF-8 bytes of one character (`str.encode()`). -/
def utf8Bytes (c : Char) : List Nat :=
  let n := c.toNat
  if n < 0x80 then [n]
  else if n < 0x800 then [0xc0 + n / 0x40, 0x80 + n % 0x40]
  else if n < 0x10000 then
    [0xe0 + n / 0x1000, 0x80 + n / 0x40 % 0x40, 0x80 + n % 0x40]
  else
    [0xf0 + n / 0x40000, 0x80 + n / 0x1000 % 0x40, 0x80 + n / 0x40 % 0x40,
     0x80 + n % 0x40]

/-- `s.encode()`: the UTF-8 bytes of a string. -/
def strBytes (s : String) : List Nat :=
  (s.data.map utf8Bytes).flatten

/-- `backend.hash_identifier`: the first 16 hex characters of the
SHA-256 of the string plus the fixed salt. -/
def hash_identifier (x : String) (salt : String := "chainguard_salt") : String :=
  (hexdigest (sha256 (strBytes (x ++ salt)))).take 16

/-- A dataframe, as its columns in order, each column a name and its
cells in row order. -/
abbrev DataFrame : Type := List (String × List String)

/-- `backend.apply_privacy_hashing`: for each listed column name in
order, if a column of that name exists, replace each of its cells by
`hash_identifier` of the cell. -/
def apply_privacy_hashing (df : DataFrame) (columns_to_hash : List String) :
    DataFrame :=
  columns_to_hash.foldl
    (fun acc col => acc.map (fun e =>
      if e.1 = col then (e.1, e.2.map (fun x => hash_identifier x)) else e))
    df

/-! # Theorems -/

/-! ## Supporting lemmas -/

/-- The level of `get_risk_level_and_action` as a bare conditional. -/
lemma level_eq (q : ℚ) :
    (get_risk_level_and_action q).level =
      if q ≥ 80 then "BLOCKED" else if q ≥ 65 then "SUSPICIOUS" else "APPROVED" := by
  unfold get_risk_level_and_action
  split_ifs <;> rfl

/-- `pyInt` is `floor` on nonnegative arguments. -/
lemma pyInt_eq_floor (x : ℚ) (hx : 0 ≤ x) : pyInt x = ⌊x⌋ := by
  unfold pyInt
  exact if_pos hx

/-! ## C1: thresholds of the risk classifier -/

/-- C1: the risk classifier `get_risk_level_and_action` is a pure, total
function of the risk score alone; for every integer score in [0, 100] a
score ≥ 80 maps to BLOCKED, a score with 65 ≤ score < 80 to SUSPICIOUS,
and a score < 65 to APPROVED; in particular 64 ↦ APPROVED,
65 ↦ SUSPICIOUS, 79 ↦ SUSPICIOUS, and 80 ↦ BLOCKED. -/
theorem risk_classifier_thresholds (score : Int) (hlo : 0 ≤ score)
    (hhi : score ≤ 100) :
    (80 ≤ score → (get_risk_level_and_action (score : ℚ)).level = "BLOCKED") ∧
    (65 ≤ score → score < 80 →
      (get_risk_level_and_action (score : ℚ)).level = "SUSPICIOUS") ∧
    (score < 65 → (get_risk_level_and_action (score : ℚ)).level = "APPROVED") ∧
    (get_risk_level_and_action ((64 : Int) : ℚ)).level = "APPROVED" ∧
    (get_risk_level_and_action ((65 : Int) : ℚ)).level = "SUSPICIOUS" ∧
    (get_risk_level_and_action ((79 : Int) : ℚ)).level = "SUSPICIOUS" ∧
    (get_risk_level_and_action ((80 : Int) : ℚ)).level = "BLOCKED" := by
  refine ⟨?_, ?_, ?_, by decide, by decide, by decide, by decide⟩
  · intro h
    rw [level_eq, if_pos (by exact_mod_cast h)]
  · intro h65 h80
    have hq80 : ¬ ((score : ℚ) ≥ 80) := by
      simp only [ge_iff_le, not_le]
      exact_mod_cast h80
    rw [level_eq, if_neg hq80, if_pos (by exact_mod_cast h65)]
  · intro h
    have hq80 : ¬ ((score : ℚ) ≥ 80) := by
      simp only [ge_iff_le, not_le]
      exact_mod_cast (by omega : score < 80)
    have hq65 : ¬ ((score : ℚ) ≥ 65) := by
      simp only [ge_iff_le, not_le]
      exact_mod_cast h
    rw [level_eq, if_neg hq80, if_neg hq65]

/-- Witness for C1 at the concrete score 64. -/
theorem risk_classifier_thresholds_witness :
    (get_risk_level_and_action ((64 : Int) : ℚ)).level = "APPROVED" :=
  (risk_classifier_thresholds 64 (by decide) (by decide)).2.2.1 (by decide)

/-! ## C2: single source of truth for tiering -/

/-- `backend.get_fraud_label` as a bare conditional. -/
lemma get_fraud_label_cases (s : Int) :
    get_fraud_label s =
      if 80 ≤ s then "Fraudulent" else if 50 ≤ s then "Suspicious" else "Normal" :=
  rfl

/-- A concrete environment for the streaming scorer: Python `hash` of
the address/value string returns 0, `hash` of the transaction hash
returns 19, and the local hour is 12. -/
def cexPyEnv : PyEnv :=
  { hashAddrVal := fun _ _ _ => 0, hashStr := fun _ => 19, localHour := fun _ => 12 }

/-- A concrete streaming transaction of 60 ETH (in wei). -/
def cexStreamTx : StreamTx :=
  { TxHash := "0xh1", BlockHeight := 1, TimeStamp := 0,
    From := "0xaa", To := "0xbb", Value := 60 * 10 ^ 18 }

/-- A concrete batch row: a failed zero-value self-transfer. -/
def cexCsvRow : CsvRow :=
  { TxHash := some "0xt1", BlockHeight := some 0, TimeStamp := some 0,
    From := some "0xs", To := some "0xs", amount := some 0, isError := some 1 }

unseal Rat.mul Rat.add Rat.sub Rat.inv in
/-- C2 is false on the code, twice over. (1) The streaming path labels
through `backend.get_fraud_label` (thresholds 80/50) instead of the
classifier: the concrete streaming transaction scores 64 and is tiered
SUSPICIOUS, while the classifier maps 64 to APPROVED, so two scoring
paths assign different tiers to the same final risk score. (2) The batch
fallback path computes its status before adding the address-based
points: the concrete batch row reports risk score 85 with status
APPROVED, while the classifier maps 85 to BLOCKED, so a reported tier
disagrees with the classifier applied to the reported risk score. -/
theorem tier_single_source_counterexample :
    ((process_transaction_data cexPyEnv cexStreamTx).risk_score = 64 ∧
     tierOfLabel (process_transaction_data cexPyEnv cexStreamTx).label = Tier.SUSPICIOUS ∧
     tierOfLevel (get_risk_level_and_action ((64 : Int) : ℚ)).level = Tier.APPROVED) ∧
    ((analyze_transactions_row 0 cexCsvRow 1 0 none "0xr1" "0xr2").risk_score = 85 ∧
     (analyze_transactions_row 0 cexCsvRow 1 0 none "0xr1" "0xr2").status = "APPROVED" ∧
     (get_risk_level_and_action ((85 : Int) : ℚ)).level = "BLOCKED") := by decide

/-- C2 corrected: the ensemble path's reported tier is the classifier of
its reported risk score, and the batch fallback path's reported tier is
the classifier of the rule/ML score accumulated BEFORE the address-based
points (not of the reported risk score); the streaming path's tier is
`backend.get_fraud_label` of its risk score, which agrees with the
classifier exactly outside the score range [50, 65). Each path's tier is
still a pure function of (an) integer risk score and of no other
input. -/
theorem tier_single_source_amended :
    (∀ (pred : Bool) (proba : ℚ) (row : EnsembleRow),
      (analyze_with_ensemble_row pred proba row).status =
        (get_risk_level_and_action
          (((analyze_with_ensemble_row pred proba row).risk_score : Int) : ℚ)).level) ∧
    (∀ (idx : Nat) (row : CsvRow) (iso : Int) (an : ℚ) (cat : Option Int)
        (rf rt : String),
      (analyze_transactions_row idx row iso an cat rf rt).status =
        (get_risk_level_and_action (rule_ml_score row iso an cat)).level) ∧
    (∀ (env : PyEnv) (tx : StreamTx),
      (process_transaction_data env tx).label =
        get_fraud_label (process_transaction_data env tx).risk_score) ∧
    (∀ s : Int,
      (tierOfLabel (get_fraud_label s) =
          tierOfLevel (get_risk_level_and_action (s : ℚ)).level) ↔
        (s < 50 ∨ 65 ≤ s)) := by
  refine ⟨fun pred proba row => rfl, fun idx row iso an cat rf rt => rfl,
    fun env tx => rfl, fun s => ?_⟩
  rw [get_fraud_label_cases, level_eq]
  rcases le_or_lt 80 s with h80 | h80
  · have hq : ((s : ℚ) ≥ 80) := by exact_mod_cast h80
    rw [if_pos h80, if_pos hq]
    exact ⟨fun _ => Or.inr (by omega), fun _ => by decide⟩
  · have hq : ¬ ((s : ℚ) ≥ 80) := by
      simp only [ge_iff_le, not_le]
      exact_mod_cast h80
    rw [if_neg (by omega : ¬ (80 ≤ s)), if_neg hq]
    rcases le_or_lt 65 s with h65 | h65
    · have hq65 : ((s : ℚ) ≥ 65) := by exact_mod_cast h65
      rw [if_pos (by omega : 50 ≤ s), if_pos hq65]
      exact ⟨fun _ => Or.inr h65, fun _ => by decide⟩
    · have hq65 : ¬ ((s : ℚ) ≥ 65) := by
        simp only [ge_iff_le, not_le]
        exact_mod_cast h65
      rw [if_neg hq65]
      rcases le_or_lt 50 s with h50 | h50
      · rw [if_pos h50]
        exact ⟨fun h => absurd h (by decide), fun h => by omega⟩
      · rw [if_neg (by omega : ¬ (50 ≤ s))]
        exact ⟨fun _ => Or.inl h50, fun _ => by decide⟩

/-! ## C3: risk score is the floor of 100 times the probability -/

/-- The fallback probability is nonnegative (final clamp). -/
lemma predict_with_risk_row_nonneg (env : PyEnv) (row : BackendRow) :
    0 ≤ predict_with_risk_row env row := by
  unfold predict_with_risk_row
  exact le_max_left 0 _

/-- The fallback probability is at most 0.95 (final clamp). -/
lemma predict_with_risk_row_le (env : PyEnv) (row : BackendRow) :
    predict_with_risk_row env row ≤ 19/20 := by
  unfold predict_with_risk_row
  exact max_le (by norm_num) (min_le_left _ _)

/-- The streaming result's probability is the fallback scorer's output
on the corresponding single-row frame. -/
lemma ptd_fraud_probability (env : PyEnv) (tx : StreamTx) :
    (process_transaction_data env tx).fraud_probability =
      predict_with_risk_row env
        { TxHash := tx.TxHash, From := tx.From, To := tx.To,
          Value := tx.Value, TimeStamp := some tx.TimeStamp } := rfl

/-- The streaming result's risk score is `pyInt` of 100 times its
probability. -/
lemma ptd_risk_score (env : PyEnv) (tx : StreamTx) :
    (process_transaction_data env tx).risk_score =
      pyInt ((process_transaction_data env tx).fraud_probability * 100) := rfl

/-- The ensemble result's risk score and probability fields. -/
lemma ensemble_row_fields (pred : Bool) (proba : ℚ) (row : EnsembleRow) :
    (analyze_with_ensemble_row pred proba row).fraud_probability = proba ∧
    (analyze_with_ensemble_row pred proba row).risk_score = pyInt (proba * 100) :=
  ⟨rfl, rfl⟩

/-- C3: on the fallback/streaming path and on the ensemble path, the
integer risk score of a scored transaction equals
`floor(fraud_probability × 100)`; the ensemble probability (a weighted
sum of sub-model probabilities) is nonnegative whenever the sub-model
probabilities and weights are. -/
theorem risk_score_floor_of_probability :
    (∀ (env : PyEnv) (tx : StreamTx),
      (process_transaction_data env tx).risk_score =
        ⌊(process_transaction_data env tx).fraud_probability * 100⌋) ∧
    (∀ (pred : Bool) (proba : ℚ) (row : EnsembleRow), 0 ≤ proba →
      (analyze_with_ensemble_row pred proba row).risk_score =
        ⌊(analyze_with_ensemble_row pred proba row).fraud_probability * 100⌋) ∧
    (∀ (outs : List (ℚ × ℚ)), (∀ mw ∈ outs, 0 ≤ mw.1 ∧ 0 ≤ mw.2) →
      0 ≤ ensemble_proba outs) := by
  refine ⟨fun env tx => ?_, fun pred proba row h => ?_, fun outs h => ?_⟩
  · rw [ptd_risk_score, ptd_fraud_probability]
    exact pyInt_eq_floor _ (mul_nonneg (predict_with_risk_row_nonneg env _) (by norm_num))
  · rw [(ensemble_row_fields pred proba row).2, (ensemble_row_fields pred proba row).1]
    exact pyInt_eq_floor _ (mul_nonneg h (by norm_num))
  · refine List.sum_nonneg ?_
    intro q hq
    rcases List.mem_map.mp hq with ⟨mw, hmw, rfl⟩
    exact mul_nonneg (h mw hmw).1 (h mw hmw).2

/-- A concrete ensemble row for the witnesses. -/
def wEnsembleRow : EnsembleRow :=
  { TxHash := "0xw3", From := "0xa3", To := "0xb3", Value := 1,
    BlockHeight := 5, TimeStamp := 0, isError := some 0 }

unseal Rat.mul Rat.add Rat.sub Rat.inv in
/-- Witness for C3 on the ensemble path at probability 1/2. -/
theorem risk_score_floor_of_probability_witness :
    ((analyze_with_ensemble_row true (1/2) wEnsembleRow).risk_score =
      ⌊(analyze_with_ensemble_row true (1/2) wEnsembleRow).fraud_probability * 100⌋) ∧
    0 ≤ ensemble_proba [((1 : ℚ)/2, 1)] :=
  ⟨risk_score_floor_of_probability.2.1 true (1/2) wEnsembleRow (by decide),
   risk_score_floor_of_probability.2.2 [((1 : ℚ)/2, 1)] (by decide)⟩

/-! ## C4: clamping of the returned probability -/

unseal Rat.mul Rat.add Rat.sub Rat.inv in
/-- C4 is false on the ensemble path: `predict_with_ensemble` applies no
clamp, so a single sub-model of weight 1 reporting probability 1 makes
the ensemble probability 1 > 0.95, and `analyze_with_ensemble_system`
reports that unclamped value as the transaction's fraud probability. -/
theorem ensemble_clamp_counterexample :
    ensemble_proba [(1, 1)] = 1 ∧ ¬ (ensemble_proba [(1, 1)] ≤ 19/20) ∧
    (analyze_with_ensemble_row true (ensemble_proba [(1, 1)]) wEnsembleRow).fraud_probability
      = 1 := by decide

/-- C4 corrected: the fallback scorer always clamps its probability into
[0, 0.95] (and the streaming path reports that clamped value), but the
ensemble path does not clamp: its probability is only bounded by [0, 1],
and only under the assumptions that every sub-model probability lies in
[0, 1], the weights are nonnegative, and the weights sum to 1. -/
theorem probability_clamp_amended :
    (∀ (env : PyEnv) (row : BackendRow),
      0 ≤ predict_with_risk_row env row ∧ predict_with_risk_row env row ≤ 19/20) ∧
    (∀ (env : PyEnv) (tx : StreamTx),
      0 ≤ (process_transaction_data env tx).fraud_probability ∧
      (process_transaction_data env tx).fraud_probability ≤ 19/20) ∧
    (∀ (outs : List (ℚ × ℚ)),
      (∀ mw ∈ outs, 0 ≤ mw.1 ∧ mw.1 ≤ 1 ∧ 0 ≤ mw.2) →
      (outs.map (fun mw => mw.2)).sum = 1 →
      0 ≤ ensemble_proba outs ∧ ensemble_proba outs ≤ 1) := by
  refine ⟨fun env row => ⟨predict_with_risk_row_nonneg env row, predict_with_risk_row_le env row⟩,
    fun env tx => ?_, fun outs h hsum => ⟨?_, ?_⟩⟩
  · rw [ptd_fraud_probability]
    exact ⟨predict_with_risk_row_nonneg env _, predict_with_risk_row_le env _⟩
  · refine List.sum_nonneg ?_
    intro q hq
    rcases List.mem_map.mp hq with ⟨mw, hmw, rfl⟩
    exact mul_nonneg (h mw hmw).1 (h mw hmw).2.2
  · have hle : (outs.map (fun mw => mw.1 * mw.2)).sum ≤ (outs.map (fun mw => mw.2)).sum := by
      refine List.sum_le_sum ?_
      intro mw hmw
      calc mw.1 * mw.2 ≤ 1 * mw.2 :=
            mul_le_mul_of_nonneg_right (h mw hmw).2.1 (h mw hmw).2.2
        _ = mw.2 := one_mul _
    calc ensemble_proba outs ≤ (outs.map (fun mw => mw.2)).sum := hle
      _ = 1 := hsum

unseal Rat.mul Rat.add Rat.sub Rat.inv in
/-- Witness for C4 at a single sub-model of probability 1/2, weight 1. -/
theorem probability_clamp_amended_witness :
    0 ≤ ensemble_proba [((1 : ℚ)/2, 1)] ∧ ensemble_proba [((1 : ℚ)/2, 1)] ≤ 1 :=
  probability_clamp_amended.2.2 [((1 : ℚ)/2, 1)] (by decide) (by decide)

/-! ## C5: deduplicator idempotence -/

/-- A record whose hash is already in the dedup set is a no-op. -/
lemma monitoring_step_mem (env : PyEnv) (tx : StreamTx) (s : MonitoringState)
    (h : tx.TxHash ∈ s.processed_tx_hashes) : monitoring_step env tx s = s := by
  unfold monitoring_step
  exact if_pos h

/-- A fresh record is scored, counted and marked, and its result feeds
every buffer exactly as the source does. -/
lemma monitoring_step_not_mem (env : PyEnv) (tx : StreamTx) (s : MonitoringState)
    (h : tx.TxHash ∉ s.processed_tx_hashes) :
    monitoring_step env tx s =
      (let r := process_transaction_data env tx
      { processed_tx_hashes := tx.TxHash :: s.processed_tx_hashes,
        total_processed := s.total_processed + 1,
        total_fraud := s.total_fraud + (if r.label = "Fraudulent" then 1 else 0),
        live_transactions := pushNewest 1000 r s.live_transactions,
        fraud_history := pushFifo 1000 r.fraud_probability s.fraud_history,
        high_risk_transactions :=
          if r.risk_score ≥ 80 then pushNewest 100 r s.high_risk_transactions
          else s.high_risk_transactions,
        suspicious_alerts :=
          if r.risk_score ≥ 80 then s.suspicious_alerts
          else if r.risk_score ≥ 65 then
            pushNewest 200 (alertOf r) s.suspicious_alerts
          else s.suspicious_alerts }) := by
  unfold monitoring_step
  exact if_neg h

/-- C5: processing a record whose hash is already in the dedup set is a
no-op (no re-scoring, no re-counting), so the streaming step is
idempotent and a hash submitted twice is counted exactly once; a fresh
hash is scored, counted and inserted. -/
theorem dedup_idempotent :
    ∀ (env : PyEnv) (tx : StreamTx) (s : MonitoringState),
      (tx.TxHash ∈ s.processed_tx_hashes → monitoring_step env tx s = s) ∧
      monitoring_step env tx (monitoring_step env tx s) = monitoring_step env tx s ∧
      (tx.TxHash ∉ s.processed_tx_hashes →
        (monitoring_step env tx s).total_processed = s.total_processed + 1 ∧
        (monitoring_step env tx s).total_fraud = s.total_fraud +
          (if (process_transaction_data env tx).label = "Fraudulent" then 1 else 0) ∧
        (monitoring_step env tx s).processed_tx_hashes =
          tx.TxHash :: s.processed_tx_hashes) := by
  intro env tx s
  by_cases h : tx.TxHash ∈ s.processed_tx_hashes
  · refine ⟨fun _ => monitoring_step_mem env tx s h, ?_, fun hn => absurd h hn⟩
    rw [monitoring_step_mem env tx s h, monitoring_step_mem env tx s h]
  · have hstep := monitoring_step_not_mem env tx s h
    refine ⟨fun hm => absurd hm h, ?_, fun _ => ?_⟩
    · have hmem : tx.TxHash ∈ (monitoring_step env tx s).processed_tx_hashes := by
        rw [hstep]
        exact List.mem_cons_self _ _
      exact monitoring_step_mem env tx _ hmem
    · rw [hstep]
      exact ⟨rfl, rfl, rfl⟩

/-- A concrete streaming transaction for the C5 witness. -/
def wStreamTx5 : StreamTx :=
  { TxHash := "0xw5", BlockHeight := 2, TimeStamp := 0,
    From := "0xa5", To := "0xb5", Value := 0 }

/-- Witness for C5: from the initial state (empty dedup set), one pass
counts the fresh transaction once and the second pass is a no-op. -/
theorem dedup_idempotent_witness :
    (monitoring_step cexPyEnv wStreamTx5
        (monitoring_step cexPyEnv wStreamTx5 initialMonitoringState) =
      monitoring_step cexPyEnv wStreamTx5 initialMonitoringState) ∧
    (monitoring_step cexPyEnv wStreamTx5 initialMonitoringState).total_processed = 0 + 1 :=
  ⟨(dedup_idempotent cexPyEnv wStreamTx5 initialMonitoringState).2.1,
   ((dedup_idempotent cexPyEnv wStreamTx5 initialMonitoringState).2.2 (by decide)).1⟩

/-! ## C6: ring-buffer bounds -/

/-- Length of one newest-first bounded insertion. -/
lemma pushNewest_length {α : Type} (cap : Nat) (x : α) (buf : List α)
    (h : buf.length ≤ cap) :
    (pushNewest cap x buf).length = min (buf.length + 1) cap := by
  unfold pushNewest
  by_cases hc : (x :: buf).length > cap
  · rw [if_pos hc, List.length_dropLast]
    simp only [List.length_cons] at hc ⊢
    omega
  · rw [if_neg hc]
    simp only [List.length_cons] at hc ⊢
    omega

/-- Length of a fold of newest-first bounded insertions. -/
lemma foldl_pushNewest_length {α : Type} (cap : Nat) (xs buf : List α)
    (h : buf.length ≤ cap) :
    (xs.foldl (fun b x => pushNewest cap x b) buf).length =
      min (buf.length + xs.length) cap := by
  induction xs generalizing buf with
  | nil =>
      simp only [List.foldl_nil, List.length_nil, Nat.add_zero]
      omega
  | cons x rest ih =>
      rw [List.foldl_cons]
      have h1 := pushNewest_length cap x buf h
      have h2 : (pushNewest cap x buf).length ≤ cap := by omega
      rw [ih (pushNewest cap x buf) h2, h1]
      simp only [List.length_cons]
      omega

/-- The head of a newest-first buffer is the element just inserted. -/
lemma pushNewest_head {α : Type} (cap : Nat) (x : α) (buf : List α)
    (hcap : 0 < cap) : (pushNewest cap x buf).head? = some x := by
  unfold pushNewest
  by_cases hc : (x :: buf).length > cap
  · rw [if_pos hc]
    cases buf with
    | nil =>
        simp only [List.length_cons, List.length_nil] at hc
        omega
    | cons y ys =>
        rfl
  · rw [if_neg hc]
    rfl

/-- A fold of FIFO bounded insertions retains exactly the most recent
`cap` elements, in insertion order. -/
lemma foldl_pushFifo_eq {α : Type} (cap : Nat) (xs buf : List α)
    (h : buf.length ≤ cap) :
    xs.foldl (fun b x => pushFifo cap x b) buf =
      (buf ++ xs).drop (buf.length + xs.length - cap) := by
  induction xs generalizing buf with
  | nil =>
      rw [List.foldl_nil, List.append_nil]
      have hz : buf.length + ([] : List α).length - cap = 0 := by
        simp only [List.length_nil]
        omega
      rw [hz, List.drop_zero]
  | cons x rest ih =>
      rw [List.foldl_cons]
      by_cases hc : buf.length < cap
      · have hp : pushFifo cap x buf = buf ++ [x] := by
          unfold pushFifo
          rw [if_neg]
          simp only [List.length_append, List.length_cons, List.length_nil,
            gt_iff_lt, not_lt]
          omega
        have hlen : (buf ++ [x]).length ≤ cap := by
          simp only [List.length_append, List.length_cons, List.length_nil]
          omega
        rw [hp, ih _ hlen, List.append_assoc, List.singleton_append]
        congr 1
        simp only [List.length_append, List.length_cons, List.length_nil]
        omega
      · have hbl : buf.length = cap := by omega
        have hp : pushFifo cap x buf = (buf ++ [x]).drop 1 := by
          unfold pushFifo
          rw [if_pos]
          simp only [List.length_append, List.length_cons, List.length_nil,
            gt_iff_lt]
          omega
        have hlen : ((buf ++ [x]).drop 1).length ≤ cap := by
          simp only [List.length_drop, List.length_append, List.length_cons,
            List.length_nil]
          omega
        rw [hp, ih _ hlen]
        rw [show ((buf ++ [x]).drop 1) ++ rest = ((buf ++ [x]) ++ rest).drop 1 from
          (List.drop_append_of_le_length (by simp)).symm]
        rw [List.drop_drop, List.append_assoc, List.singleton_append]
        congr 1
        simp only [List.length_drop, List.length_append, List.length_cons,
          List.length_nil]
        omega

/-- C6: after more insertions than its capacity, each alert buffer holds
exactly its capacity (live feed 1000, fraud-probability history 1000,
high-risk 100, suspicious alerts 200); the FIFO fraud-probability
history retains exactly the most recent 1000 elements in insertion
order; in every newest-first buffer the head is the element just
inserted; and the streaming step feeds the buffers with exactly these
bounded insertions at these capacities. -/
theorem ring_buffer_bounds :
    (∀ (xs : List ScoredTx), 1000 < xs.length →
      (xs.foldl (fun b x => pushNewest 1000 x b) []).length = 1000) ∧
    (∀ (ps : List ℚ), 1000 < ps.length →
      ps.foldl (fun b x => pushFifo 1000 x b) [] = ps.drop (ps.length - 1000) ∧
      (ps.foldl (fun b x => pushFifo 1000 x b) []).length = 1000) ∧
    (∀ (xs : List ScoredTx), 100 < xs.length →
      (xs.foldl (fun b x => pushNewest 100 x b) []).length = 100) ∧
    (∀ (xs : List AlertTx), 200 < xs.length →
      (xs.foldl (fun b x => pushNewest 200 x b) []).length = 200) ∧
    (∀ (x : ScoredTx) (buf : List ScoredTx),
      (pushNewest 1000 x buf).head? = some x ∧
      (pushNewest 100 x buf).head? = some x) ∧
    (∀ (a : AlertTx) (buf : List AlertTx), (pushNewest 200 a buf).head? = some a) ∧
    (∀ (env : PyEnv) (tx : StreamTx) (s : MonitoringState),
      tx.TxHash ∉ s.processed_tx_hashes →
      (monitoring_step env tx s).live_transactions =
        pushNewest 1000 (process_transaction_data env tx) s.live_transactions ∧
      (monitoring_step env tx s).fraud_history =
        pushFifo 1000 (process_transaction_data env tx).fraud_probability
          s.fraud_history ∧
      ((process_transaction_data env tx).risk_score ≥ 80 →
        (monitoring_step env tx s).high_risk_transactions =
          pushNewest 100 (process_transaction_data env tx)
            s.high_risk_transactions) ∧
      (¬ (process_transaction_data env tx).risk_score ≥ 80 →
        (process_transaction_data env tx).risk_score ≥ 65 →
        ∃ a : AlertTx, a.tx = process_transaction_data env tx ∧
          (monitoring_step env tx s).suspicious_alerts =
            pushNewest 200 a s.suspicious_alerts)) := by
  refine ⟨fun xs hxs => ?_, fun ps hps => ?_, fun xs hxs => ?_, fun xs hxs => ?_,
    fun x buf => ⟨pushNewest_head 1000 x buf (by norm_num),
      pushNewest_head 100 x buf (by norm_num)⟩,
    fun a buf => pushNewest_head 200 a buf (by norm_num),
    fun env tx s h => ?_⟩
  · rw [foldl_pushNewest_length 1000 xs [] (by simp)]
    simp only [List.length_nil]
    omega
  · have he := foldl_pushFifo_eq 1000 ps [] (by simp)
    simp only [List.nil_append, List.length_nil, Nat.zero_add] at he
    refine ⟨he, ?_⟩
    rw [he, List.length_drop]
    omega
  · rw [foldl_pushNewest_length 100 xs [] (by simp)]
    simp only [List.length_nil]
    omega
  · rw [foldl_pushNewest_length 200 xs [] (by simp)]
    simp only [List.length_nil]
    omega
  · rw [monitoring_step_not_mem env tx s h]
    refine ⟨rfl, rfl, fun h80 => ?_, fun h80 h65 => ?_⟩
    · exact if_pos h80
    · refine ⟨alertOf (process_transaction_data env tx), rfl, ?_⟩
      show (if (process_transaction_data env tx).risk_score ≥ 80 then
          s.suspicious_alerts
        else if (process_transaction_data env tx).risk_score ≥ 65 then
          pushNewest 200 (alertOf (process_transaction_data env tx))
            s.suspicious_alerts
        else s.suspicious_alerts) = _
      rw [if_neg h80, if_pos h65]

/-- A concrete scored transaction, fraud probability and alert entry for
the C6 witness. -/
def wScoredTx6 : ScoredTx :=
  { TxHash := "0xw6", BlockHeight := 3, TimeStamp := 0, From := "0xa6",
    To := "0xb6", Value := 0, fraud_probability := 0, risk_score := 0,
    label := "Normal", action := "a" }

/-- Witness for C6: 1001 insertions leave the live buffer at length 1000
and the FIFO history keeps the most recent 1000 values. -/
theorem ring_buffer_bounds_witness :
    ((List.replicate 1001 wScoredTx6).foldl
        (fun b x => pushNewest 1000 x b) []).length = 1000 ∧
    (List.replicate 1001 (0 : ℚ)).foldl (fun b x => pushFifo 1000 x b) [] =
      (List.replicate 1001 (0 : ℚ)).drop ((List.replicate 1001 (0 : ℚ)).length - 1000) :=
  ⟨ring_buffer_bounds.1 (List.replicate 1001 wScoredTx6)
      (by rw [List.length_replicate]; omega),
   (ring_buffer_bounds.2.1 (List.replicate 1001 (0 : ℚ))
      (by rw [List.length_replicate]; omega)).1⟩

/-! ## C7: address-profile updates -/

/-- Replacing the entries keyed by `address` makes the lookup return the
replacement, provided the address was present. -/
lemma lookupNode_map_set (store : NodeStore) (address : String) (rec : NodeRecord)
    (h : (lookupNode store address).isSome) :
    lookupNode (store.map (fun e => if e.1 = address then (address, rec) else e))
      address = some rec := by
  induction store with
  | nil => simp [lookupNode] at h
  | cons e rest ih =>
      by_cases he : e.1 = address
      · simp only [List.map_cons, if_pos he]
        unfold lookupNode
        rw [List.find?_cons_of_pos _ (by simp)]
        rfl
      · simp only [List.map_cons, if_neg he]
        unfold lookupNode
        rw [List.find?_cons_of_neg _ (by simp [he])]
        have h2 : (lookupNode rest address).isSome := by
          unfold lookupNode at h
          rwa [List.find?_cons_of_neg _ (by simp [he])] at h
        exact ih h2

/-- Appending a record for an absent address makes the lookup find it. -/
lemma lookupNode_append_single (store : NodeStore) (address : String)
    (rec : NodeRecord) (h : lookupNode store address = none) :
    lookupNode (store ++ [(address, rec)]) address = some rec := by
  induction store with
  | nil =>
      unfold lookupNode
      rw [List.nil_append, List.find?_cons_of_pos _ (by simp)]
      rfl
  | cons e rest ih =>
      have he : ¬ (e.1 = address) := by
        intro hcontra
        unfold lookupNode at h
        rw [List.find?_cons_of_pos _ (by simp [hcontra])] at h
        simp at h
      have h2 : lookupNode rest address = none := by
        unfold lookupNode at h
        rwa [List.find?_cons_of_neg _ (by simp [he])] at h
      unfold lookupNode
      rw [List.cons_append, List.find?_cons_of_neg _ (by simp [he])]
      exact ih h2

unseal Rat.mul Rat.add Rat.sub Rat.inv in
/-- C7 is false on the code, twice over, at the very first transaction
of a fresh address: a transaction labelled `Suspicious` (tier SUSPICIOUS
≠ APPROVED) does not increment the fraud count, because the source tests
`label == 'Fraudulent'`; and the newly created profile's aggregate risk
score is the hard-coded 0.1 (0.5 for fraud), not the aggregate formula,
which at these inputs evaluates to 1/1000. -/
theorem node_profile_counterexample :
    tierOfLabel "Suspicious" ≠ Tier.APPROVED ∧
    lookupNode (update_node_analysis [] "0xaaa" "0xbbb" "Suspicious" 0) "0xaaa" =
      some { total_transactions := 1, fraud_transactions := 0,
             fraud_percentage := 0, total_value := 0, fraud_value := 0,
             risk_score := 1/10 } ∧
    specAggregateRisk 0 0 0 1 = 1/1000 ∧ ((1 : ℚ)/10) ≠ 1/1000 := by decide

/-- C7 corrected: both the sender and the receiver profile are updated,
skipping the empty and the designated null address; the fraud count is
incremented by 1 exactly when the transaction's label is `Fraudulent`
(the BLOCKED tier of the streaming labeller), not whenever the tier is
not APPROVED; the aggregate-risk formula of the specification holds for
every update of an EXISTING profile, while a newly created profile gets
the hard-coded risk score 0.5 (fraud) or 0.1 (non-fraud) instead. -/
theorem node_profile_amended :
    (∀ (store : NodeStore) (address : String) (is_fraud : Bool) (tx_value : ℚ)
        (r : NodeRecord),
      ¬ (address = "" ∨ address = NULL_ADDRESS) →
      lookupNode store address = some r →
      lookupNode (update_address store address is_fraud tx_value) address =
        some { total_transactions := r.total_transactions + 1,
               fraud_transactions :=
                 r.fraud_transactions + (if is_fraud then 1 else 0),
               fraud_percentage :=
                 (((r.fraud_transactions + (if is_fraud then 1 else 0) : Int) : ℚ) /
                   ((r.total_transactions + 1 : Int) : ℚ)) * 100,
               total_value := r.total_value + tx_value,
               fraud_value := r.fraud_value + (if is_fraud then tx_value else 0),
               risk_score := specAggregateRisk
                 ((((r.fraud_transactions + (if is_fraud then 1 else 0) : Int) : ℚ) /
                   ((r.total_transactions + 1 : Int) : ℚ)) * 100)
                 (r.fraud_transactions + (if is_fraud then 1 else 0))
                 (r.total_value + tx_value)
                 (r.total_transactions + 1) }) ∧
    (∀ (store : NodeStore) (address : String) (is_fraud : Bool) (tx_value : ℚ),
      ¬ (address = "" ∨ address = NULL_ADDRESS) →
      lookupNode store address = none →
      lookupNode (update_address store address is_fraud tx_value) address =
        some { total_transactions := 1,
               fraud_transactions := if is_fraud then 1 else 0,
               fraud_percentage := if is_fraud then 100 else 0,
               total_value := tx_value,
               fraud_value := if is_fraud then tx_value else 0,
               risk_score := if is_fraud then (1 : ℚ)/2 else 1/10 }) ∧
    (∀ (store : NodeStore) (is_fraud : Bool) (tx_value : ℚ),
      update_address store NULL_ADDRESS is_fraud tx_value = store ∧
      update_address store "" is_fraud tx_value = store) ∧
    (∀ (store : NodeStore) (txFrom txTo label : String) (value : ℚ),
      update_node_analysis store txFrom txTo label value =
        update_address
          (update_address store txFrom (label = "Fraudulent") (value / 10 ^ 18))
          txTo (label = "Fraudulent") (value / 10 ^ 18)) := by
  refine ⟨fun store address is_fraud tx_value r hne hlook => ?_,
    fun store address is_fraud tx_value hne hlook => ?_,
    fun store is_fraud tx_value => ⟨?_, ?_⟩,
    fun store txFrom txTo label value => rfl⟩
  · unfold update_address
    rw [if_neg hne, hlook]
    rw [lookupNode_map_set store address _ (by rw [hlook]; rfl)]
    congr 2
    unfold specAggregateRisk
    congr 2
    ring
  · unfold update_address
    rw [if_neg hne, hlook]
    exact lookupNode_append_single store address _ hlook
  · unfold update_address
    rw [if_pos (Or.inr rfl)]
  · unfold update_address
    rw [if_pos (Or.inl rfl)]

/-- Witness for C7: updating an existing profile (1 transaction, no
fraud) with a non-fraud transaction of value 2000 follows the aggregate
formula, and the null address is skipped. -/
theorem node_profile_amended_witness :
    lookupNode
      (update_address
        [("0xw7", { total_transactions := 1, fraud_transactions := 0,
                    fraud_percentage := 0, total_value := 0, fraud_value := 0,
                    risk_score := 1/10 })]
        "0xw7" false 2000) "0xw7" =
      some { total_transactions := (1 : Int) + 1,
             fraud_transactions := (0 : Int) + (if False then 1 else 0),
             fraud_percentage :=
               ((((0 : Int) + (if False then 1 else 0) : Int) : ℚ) /
                 (((1 : Int) + 1 : Int) : ℚ)) * 100,
             total_value := (0 : ℚ) + 2000,
             fraud_value := (0 : ℚ) + (if False then (2000 : ℚ) else 0),
             risk_score := specAggregateRisk
               ((((0 : Int) + (if False then 1 else 0) : Int) : ℚ) /
                 (((1 : Int) + 1 : Int) : ℚ) * 100)
               ((0 : Int) + (if False then 1 else 0))
               ((0 : ℚ) + 2000)
               ((1 : Int) + 1) } := by
  have h := node_profile_amended.1
    [("0xw7", { total_transactions := 1, fraud_transactions := 0,
                fraud_percentage := 0, total_value := 0, fraud_value := 0,
                risk_score := 1/10 })]
    "0xw7" false 2000
    { total_transactions := 1, fraud_transactions := 0, fraud_percentage := 0,
      total_value := 0, fraud_value := 0, risk_score := 1/10 }
    (by decide) (by rfl)
  simpa using h

/-! ## C8: batch input validation -/

/-- A concrete ML environment for the batch analyzer: no Isolation
Forest anomaly (prediction 1, score 0), no CatBoost, fixed random
fallback addresses. -/
def cexMlEnv : MlEnv :=
  { isoPred := fun _ => 1, anomalyScore := fun _ => 0, catPred := none,
    randFrom := fun _ => "0xr1", randTo := fun _ => "0xr2" }

/-- A row as parsed from an upload that only has a `TxHash` column. -/
def cexMissingRow : CsvRow :=
  { TxHash := some "0xt8", BlockHeight := none, TimeStamp := none,
    From := none, To := none, amount := none, isError := none }

/-- An upload whose only column is `TxHash`: five required columns are
missing. -/
def cexMissingFile : CsvFile :=
  { filename := "upload.csv", columns := ["TxHash"], rows := [cexMissingRow] }

unseal Rat.mul Rat.add Rat.sub Rat.inv in
/-- C8 is false on the `api_server` entry point: for an upload missing
five of the six required columns, `analyze_csv` does not reject; it
scores the row (with neutral defaults), returning one scored result of
risk 20 (the dust rule fires on the defaulted amount 0). Only the
Streamlit entry point detects the missing columns. -/
theorem csv_missing_columns_counterexample :
    show_csv_scoring_missing_cols cexMissingFile.columns =
      ["BlockHeight", "TimeStamp", "From", "To", "Value"] ∧
    (analyze_csv cexMlEnv (some cexMissingFile)).toOption =
      some (analyze_transactions cexMlEnv cexMissingFile.rows) ∧
    (analyze_transactions cexMlEnv cexMissingFile.rows).map
      (fun r => r.risk_score) = [20] := by decide

/-- C8 corrected: the Streamlit upload page (`app.py show_csv_scoring`)
rejects the batch exactly when a required column is missing, before any
scoring; the `api_server` endpoint `analyze_csv` never checks the
required columns - it only rejects a missing file, an empty filename, a
non-`.csv` filename, or an empty dataframe, and otherwise scores every
row, substituting neutral defaults for missing fields. -/
theorem batch_validation_amended :
    (∀ (cols : List String),
      show_csv_scoring_missing_cols cols ≠ [] ↔
        show_csv_scoring_rejects cols = true) ∧
    (∀ (ml : MlEnv) (f : CsvFile),
      ¬ f.filename = "" → strEndsWith f.filename ".csv" = true → ¬ f.rows = [] →
      analyze_csv ml (some f) = .ok (analyze_transactions ml f.rows) ∧
      (analyze_transactions ml f.rows).length = f.rows.length) := by
  refine ⟨fun cols => ?_, fun ml f h1 h2 h3 => ⟨?_, ?_⟩⟩
  · unfold show_csv_scoring_rejects
    rw [decide_eq_true_iff]
    simp [List.isEmpty_iff]
  · simp only [analyze_csv]
    rw [if_neg h1, if_neg (by simp [h2]), if_neg (by simp [List.isEmpty_iff, h3])]
  · unfold analyze_transactions
    rw [List.length_map, List.enum_length]

/-- A well-formed single-row upload for the C8 witness. -/
def wCsvFile8 : CsvFile :=
  { filename := "tx.csv",
    columns := ["TxHash", "BlockHeight", "TimeStamp", "From", "To", "Value"],
    rows := [{ TxHash := some "0xt8b", BlockHeight := some 19000000,
               TimeStamp := some 1699000000, From := some "0xa8",
               To := some "0xb8", amount := some 5, isError := some 0 }] }

/-- Witness for C8: a well-formed `.csv` upload with one row is accepted
and produces exactly one result. -/
theorem batch_validation_amended_witness :
    analyze_csv cexMlEnv (some wCsvFile8) =
      .ok (analyze_transactions cexMlEnv wCsvFile8.rows) ∧
    (analyze_transactions cexMlEnv wCsvFile8.rows).length = wCsvFile8.rows.length :=
  batch_validation_amended.2 cexMlEnv wCsvFile8 (by decide) (by decide) (by decide)

/-! ## C9: zero-value self-transfer scenario -/

/-- A zero-value self-transfer row for the batch fallback analyzer. -/
def c9Row : CsvRow :=
  { TxHash := some "0xt9", BlockHeight := some 0, TimeStamp := some 0,
    From := some "0xself", To := some "0xself", amount := some 0,
    isError := some 0 }

unseal Rat.mul Rat.add Rat.sub Rat.inv in
/-- C9 is false as stated on the batch fallback path: for the concrete
zero-value self-transfer the flag list is
`["Dust Transaction", "Self Transfer"]` - the self-transfer flag is
spelled `Self Transfer`, not `Self Transaction` - even though the risk
score is indeed 45. -/
theorem self_dust_flags_counterexample :
    ¬ ("Self Transaction" ∈
        (analyze_transactions_row 0 c9Row 1 0 none "0xr1" "0xr2").flags) ∧
    (analyze_transactions_row 0 c9Row 1 0 none "0xr1" "0xr2").flags =
      ["Dust Transaction", "Self Transfer"] ∧
    (analyze_transactions_row 0 c9Row 1 0 none "0xr1" "0xr2").risk_score = 45 := by
  decide

/-- The flag list reported by the batch analyzer, in terms of the
pre-address flags. -/
lemma atr_flags (idx : Nat) (row : CsvRow) (iso : Int) (an : ℚ)
    (cat : Option Int) (rf rt : String) :
    (analyze_transactions_row idx row iso an cat rf rt).flags =
      (let f7 := rule_ml_flags row iso an cat
       let from_addr := row.From.getD rf
       let to_addr := row.To.getD rt
       let f9 := if from_addr = to_addr then f7 ++ ["Self Transfer"] else f7
       let f10 :=
         if strCountChar from_addr '0' > 20 then f9 ++ ["Contract-like From"]
         else f9
       if strCountChar to_addr '0' > 20 then f10 ++ ["Contract-like To"]
       else f10) := rfl

/-- The risk score reported by the batch analyzer, in terms of the
pre-address score. -/
lemma atr_risk_score (idx : Nat) (row : CsvRow) (iso : Int) (an : ℚ)
    (cat : Option Int) (rf rt : String) :
    (analyze_transactions_row idx row iso an cat rf rt).risk_score =
      (let r8 := rule_ml_score row iso an cat
       let from_addr := row.From.getD rf
       let to_addr := row.To.getD rt
       let r9 := if from_addr = to_addr then r8 + 25 else r8
       let r10 := if strCountChar from_addr '0' > 20 then r9 + 10 else r9
       let r11 := if strCountChar to_addr '0' > 20 then r10 + 10 else r10
       min 100 (pyInt r11)) := rfl

set_option maxHeartbeats 2000000 in
/-- On a zero-amount row the dust rule fires, so `Dust Transaction` is
among the pre-address flags. -/
lemma rule_ml_flags_dust (row : CsvRow) (iso : Int) (an : ℚ)
    (cat : Option Int) (ham : row.amount = some 0) :
    "Dust Transaction" ∈ rule_ml_flags row iso an cat := by
  unfold rule_ml_flags
  rw [ham]
  norm_num
  cases cat <;> split_ifs <;> simp <;> split_ifs <;> simp

set_option maxHeartbeats 2000000 in
/-- On a zero-amount row the pre-address score is at least 20 (the dust
points), every other contribution being nonnegative. -/
lemma rule_ml_score_ge (row : CsvRow) (iso : Int) (an : ℚ)
    (cat : Option Int) (ham : row.amount = some 0) :
    (20 : ℚ) ≤ rule_ml_score row iso an cat := by
  unfold rule_ml_score
  rw [ham]
  have hml : (0 : ℚ) ≤ min 25 (|an| * 15) := le_min (by norm_num) (by positivity)
  have habs : (0 : ℚ) ≤ |an| * 15 := by positivity
  norm_num
  cases cat <;> split_ifs <;> (norm_num [min_def]; try linarith [hml, habs]) <;>
    split_ifs <;> (norm_num [min_def]; try linarith [hml, habs])

/-- C9 corrected: for every zero-value self-transfer, the batch fallback
result carries the flags `Dust Transaction` and `Self Transfer` (not
`Self Transaction`) and its reported risk score is at least 45
(dust 20 + self-transfer 25, all other contributions being
nonnegative); on the ensemble path the flags `Dust Transaction` and
`Self Transaction` are both present (but that path's risk score is the
model's, not the rule sum). -/
theorem self_dust_flags_amended :
    (∀ (idx : Nat) (row : CsvRow) (iso : Int) (an : ℚ) (cat : Option Int)
        (rf rt : String) (a : String),
      row.amount = some 0 → row.From = some a → row.To = some a →
      ("Dust Transaction" ∈
        (analyze_transactions_row idx row iso an cat rf rt).flags ∧
       "Self Transfer" ∈
        (analyze_transactions_row idx row iso an cat rf rt).flags ∧
       45 ≤ (analyze_transactions_row idx row iso an cat rf rt).risk_score)) ∧
    (∀ (pred : Bool) (proba : ℚ) (row : EnsembleRow),
      row.Value = 0 → row.From = row.To →
      ("Dust Transaction" ∈ (analyze_with_ensemble_row pred proba row).flags ∧
       "Self Transaction" ∈ (analyze_with_ensemble_row pred proba row).flags)) := by
  constructor
  · intro idx row iso an cat rf rt a ham hfrom hto
    have hdust := rule_ml_flags_dust row iso an cat ham
    have hscore := rule_ml_score_ge row iso an cat ham
    refine ⟨?_, ?_, ?_⟩
    · rw [atr_flags]
      simp only [hfrom, hto, Option.getD_some, eq_self_iff_true, if_true]
      split_ifs <;> simp [hdust]
    · rw [atr_flags]
      simp only [hfrom, hto, Option.getD_some, eq_self_iff_true, if_true]
      split_ifs <;> simp
    · rw [atr_risk_score]
      simp only [hfrom, hto, Option.getD_some, eq_self_iff_true, if_true]
      have key : ∀ x : ℚ, 45 ≤ x → (45 : Int) ≤ min 100 (pyInt x) := by
        intro x hx
        have h0 : (0 : ℚ) ≤ x := le_trans (by norm_num) hx
        refine le_min (by norm_num) ?_
        rw [pyInt_eq_floor x h0]
        exact Int.le_floor.mpr (by exact_mod_cast hx)
      split_ifs <;> apply key <;> linarith [hscore]
  · intro pred proba row hval hft
    simp only [analyze_with_ensemble_row, hval, hft]
    have h1 : ¬ ((0 : ℚ) > 1000) := by norm_num
    have h2 : ¬ ((0 : ℚ) > 100) := by norm_num
    have h3 : (0 : ℚ) < 1/1000 := by norm_num
    have h4 : ¬ ((0 : ℚ) = pyRoundAt 0 0 ∧ (0 : ℚ) ≥ 1) :=
      fun hc => absurd hc.2 (by norm_num)
    simp only [if_neg h1, if_neg h2, if_pos h3, if_neg h4, eq_self_iff_true,
      if_true]
    constructor
    · split_ifs <;> simp
    · split_ifs <;> simp

/-- Witness for C9 on both paths at concrete zero-value self-transfers. -/
theorem self_dust_flags_amended_witness :
    ("Dust Transaction" ∈
      (analyze_transactions_row 0 c9Row 1 0 none "0xr1" "0xr2").flags ∧
     "Self Transfer" ∈
      (analyze_transactions_row 0 c9Row 1 0 none "0xr1" "0xr2").flags ∧
     45 ≤ (analyze_transactions_row 0 c9Row 1 0 none "0xr1" "0xr2").risk_score) ∧
    ("Dust Transaction" ∈ (analyze_with_ensemble_row false 0
        { TxHash := "0xt9e", From := "0xs9", To := "0xs9", Value := 0,
          BlockHeight := 0, TimeStamp := 0, isError := some 0 }).flags ∧
     "Self Transaction" ∈ (analyze_with_ensemble_row false 0
        { TxHash := "0xt9e", From := "0xs9", To := "0xs9", Value := 0,
          BlockHeight := 0, TimeStamp := 0, isError := some 0 }).flags) :=
  ⟨self_dust_flags_amended.1 0 c9Row 1 0 none "0xr1" "0xr2" "0xself" rfl rfl rfl,
   self_dust_flags_amended.2 false 0
    { TxHash := "0xt9e", From := "0xs9", To := "0xs9", Value := 0,
      BlockHeight := 0, TimeStamp := 0, isError := some 0 } rfl rfl⟩

/-! ## C10: privacy hashing as a frame-preserving transformation -/

set_option maxRecDepth 10000 in
/-- C10 is false for a column list with a duplicate: listing `From`
twice hashes the column twice, so the cell holds
`hash_identifier (hash_identifier "x")`, which differs from the single
hash of the cell's string that the claim prescribes. -/
theorem privacy_hashing_duplicate_counterexample :
    apply_privacy_hashing [("From", ["x"])] ["From", "From"] =
      [("From", [hash_identifier (hash_identifier "x")])] ∧
    hash_identifier (hash_identifier "x") ≠ hash_identifier "x" ∧
    apply_privacy_hashing [("From", ["x"])] ["From", "From"] ≠
      [("From", [hash_identifier "x"])] := by decide

/-- C10 corrected: for every dataframe and every duplicate-free list of
column names, `apply_privacy_hashing` maps each listed column that
exists to the `hash_identifier` image of its cells and leaves every
other column untouched (a column listed k times is hashed k times);
unconditionally, the column names, their order, and each column's cell
count (hence the row count and row order) are unchanged, and the
function is deterministic: equal inputs give equal outputs. -/
theorem privacy_hashing_amended :
    (∀ (df : DataFrame) (cols : List String), cols.Nodup →
      apply_privacy_hashing df cols =
        df.map (fun e =>
          if e.1 ∈ cols then (e.1, e.2.map (fun x => hash_identifier x)) else e)) ∧
    (∀ (df : DataFrame) (cols : List String),
      (apply_privacy_hashing df cols).map Prod.fst = df.map Prod.fst ∧
      (apply_privacy_hashing df cols).map (fun e => e.2.length) =
        df.map (fun e => e.2.length)) ∧
    (∀ (df1 df2 : DataFrame) (cols1 cols2 : List String),
      df1 = df2 → cols1 = cols2 →
      apply_privacy_hashing df1 cols1 = apply_privacy_hashing df2 cols2) := by
  refine ⟨?_, ?_, fun df1 df2 cols1 cols2 h1 h2 => by rw [h1, h2]⟩
  · intro df cols
    induction cols generalizing df with
    | nil =>
        intro _
        simp [apply_privacy_hashing]
    | cons c cs ih =>
        intro hnd
        rcases List.nodup_cons.mp hnd with ⟨hc, hcs⟩
        have step := ih
          (df.map (fun e =>
            if e.1 = c then (e.1, e.2.map (fun x => hash_identifier x)) else e))
          hcs
        show apply_privacy_hashing
            (df.map (fun e =>
              if e.1 = c then (e.1, e.2.map (fun x => hash_identifier x)) else e))
            cs =
          df.map (fun e =>
            if e.1 ∈ c :: cs then (e.1, e.2.map (fun x => hash_identifier x)) else e)
        rw [step, List.map_map]
        refine List.map_congr_left ?_
        intro e _
        by_cases he : e.1 = c
        · simp [Function.comp, he, hc, List.mem_cons]
        · by_cases hem : e.1 ∈ cs
          · simp [Function.comp, he, hem, List.mem_cons]
          · simp [Function.comp, he, hem, List.mem_cons]
  · intro df cols
    induction cols generalizing df with
    | nil => exact ⟨rfl, rfl⟩
    | cons c cs ih =>
        have hstep := ih
          (df.map (fun e =>
            if e.1 = c then (e.1, e.2.map (fun x => hash_identifier x)) else e))
        constructor
        · show (apply_privacy_hashing
            (df.map (fun e =>
              if e.1 = c then (e.1, e.2.map (fun x => hash_identifier x)) else e))
            cs).map Prod.fst = _
          rw [hstep.1, List.map_map]
          refine List.map_congr_left ?_
          intro e _
          by_cases he : e.1 = c <;> simp [Function.comp, he]
        · show (apply_privacy_hashing
            (df.map (fun e =>
              if e.1 = c then (e.1, e.2.map (fun x => hash_identifier x)) else e))
            cs).map (fun e => e.2.length) = _
          rw [hstep.2, List.map_map]
          refine List.map_congr_left ?_
          intro e _
          by_cases he : e.1 = c <;> simp [Function.comp, he]

/-- Witness for C10: hashing the `From` column of a two-column frame. -/
theorem privacy_hashing_amended_witness :
    apply_privacy_hashing [("From", ["x"]), ("Val", ["7"])] ["From"] =
      [("From", ["x"]), ("Val", ["7"])].map
        (fun e =>
          if e.1 ∈ ["From"] then (e.1, e.2.map (fun x => hash_identifier x))
          else e) :=
  privacy_hashing_amended.1 [("From", ["x"]), ("Val", ["7"])] ["From"] (by decide)

end ChainGuard
